import Mathlib

/-
Shallow embedding of the adaptive-data-streaming repository's core:
the quality decision engine (src/server/controller.py, src/server/config.py),
the stream sources (src/server/video_stream.py, src/server/camera_stream.py),
the streaming engine (src/server/stream_engine.py), the orchestration layer
(src/server/stream_controller.py) and the telemetry boundary
(src/server/socket_handlers.py).  Python floats are modelled as rationals,
timestamps as rationals, dictionaries with optional fields as structures of
Option values, and exceptions as Except results.
-/

namespace AdaptiveStreaming

/-- Quality levels, the closed enumeration used throughout the code. -/
inductive Quality where
  | low
  | medium
  | high
deriving DecidableEq, Repr

/-- Numeric rank giving the total order low < medium < high. -/
def Quality.rank : Quality → Nat
  | .low => 0
  | .medium => 1
  | .high => 2

/-- One entry of the QUALITY_THRESHOLDS table in src/server/config.py. -/
structure Threshold where
  resolution : Int × Int
  bitrate : Int
  min_bandwidth : ℚ
  max_latency : ℚ
  max_packet_loss : ℚ

/-- QUALITY_THRESHOLDS from src/server/config.py lines 30-52. -/
def QUALITY_THRESHOLDS : Quality → Threshold
  | .low => { resolution := (640, 360), bitrate := 500,
              min_bandwidth := 0, max_latency := 500, max_packet_loss := 10 }
  | .medium => { resolution := (1280, 720), bitrate := 1500,
                 min_bandwidth := 2, max_latency := 150, max_packet_loss := 5 }
  | .high => { resolution := (1920, 1080), bitrate := 3000,
               min_bandwidth := 5, max_latency := 75, max_packet_loss := 2 }

/-- QUALITY_STABILITY_PERIOD from src/server/config.py line 56 (seconds). -/
def QUALITY_STABILITY_PERIOD : ℚ := 5

/-- DEFAULT_QUALITY from src/server/config.py line 57. -/
def DEFAULT_QUALITY : Quality := Quality.medium

/-- Membership test of a quality string in the threshold table; mirrors the
checks of the form quality in QUALITY_THRESHOLDS and
quality in ['low', 'medium', 'high'] in the Python code. -/
def parseQuality (s : String) : Option Quality :=
  if s = "low" then some Quality.low
  else if s = "medium" then some Quality.medium
  else if s = "high" then some Quality.high
  else none

/-- Incoming metrics dictionary; a field is none when the key is absent. -/
structure MetricsMsg where
  bandwidth : Option ℚ
  latency : Option ℚ
  packet_loss : Option ℚ

/-- Defaulting of missing metric fields inside
AdaptiveQualityController.determine_quality (src/server/controller.py
lines 51-53): metrics.get of bandwidth with default 0, latency with
default 500 and packet_loss with default 15. -/
def controllerMetricDefaults (m : MetricsMsg) : ℚ × ℚ × ℚ :=
  (m.bandwidth.getD 0, m.latency.getD 500, m.packet_loss.getD 15)

/-- Defaulting of missing metric fields in handle_network_metrics
(src/server/socket_handlers.py lines 22-24): latency defaults to 999,
packet_loss to 100, bandwidth to 0. -/
def boundaryMetricDefaults (m : MetricsMsg) : ℚ × ℚ × ℚ :=
  (m.bandwidth.getD 0, m.latency.getD 999, m.packet_loss.getD 100)

/-- Test whether a sample meets the three thresholds of a level, the shape of
high_threshold_met and medium_threshold_met in determine_quality. -/
def threshold_met (q : Quality) (bw lat loss : ℚ) : Prop :=
  (QUALITY_THRESHOLDS q).min_bandwidth ≤ bw
    ∧ lat ≤ (QUALITY_THRESHOLDS q).max_latency
    ∧ loss ≤ (QUALITY_THRESHOLDS q).max_packet_loss

instance (q : Quality) (bw lat loss : ℚ) : Decidable (threshold_met q bw lat loss) := by
  unfold threshold_met
  infer_instance

/-- Candidate selection of determine_quality (src/server/controller.py
lines 58-83): high if the high thresholds are met, else medium if the medium
thresholds are met, else low. -/
def optimalQuality (bw lat loss : ℚ) : Quality :=
  if threshold_met Quality.high bw lat loss then Quality.high
  else if threshold_met Quality.medium bw lat loss then Quality.medium
  else Quality.low

/-- Mutable state of AdaptiveQualityController (src/server/controller.py
lines 25-39). -/
structure ControllerState where
  current_quality : Quality
  last_change_time : ℚ
  quality_stability_period : ℚ
  quality_history : List Quality
deriving DecidableEq, Repr

/-- AdaptiveQualityController.determine_quality (src/server/controller.py
lines 41-104): compute the candidate from the defaulted metrics, apply it only
if it differs from the current quality and the stability period has elapsed
(updating last_change_time and appending to the history), then trim the
history to its last 100 entries, and return the resulting current quality. -/
def determine_quality (s : ControllerState) (m : MetricsMsg) (now : ℚ) :
    ControllerState × Quality :=
  let d := controllerMetricDefaults m
  let optimal := optimalQuality d.1 d.2.1 d.2.2
  let s1 :=
    if optimal ≠ s.current_quality then
      if s.quality_stability_period ≤ now - s.last_change_time then
        { s with current_quality := optimal,
                 last_change_time := now,
                 quality_history := s.quality_history ++ [optimal] }
      else s
    else s
  let s2 :=
    if 100 < s1.quality_history.length then
      { s1 with quality_history :=
          s1.quality_history.drop (s1.quality_history.length - 100) }
    else s1
  (s2, s2.current_quality)

/-- AdaptiveQualityController.set_quality (src/server/controller.py
lines 145-160): reject a quality not in the threshold table; otherwise, if it
differs from the current quality, set it, append it to the history and stamp
last_change_time with the current time.  Note: no history trimming here. -/
def ctrl_set_quality (s : ControllerState) (q : String) (now : ℚ) :
    ControllerState :=
  match parseQuality q with
  | none => s
  | some qq =>
    if qq ≠ s.current_quality then
      { s with current_quality := qq,
               quality_history := s.quality_history ++ [qq],
               last_change_time := now }
    else s

/-- Python int() applied to a rational: truncation toward zero. -/
def pyInt (q : ℚ) : Int :=
  if 0 ≤ q then ⌊q⌋ else ⌈q⌉

/-- Python round() applied to a rational: nearest integer, ties to even. -/
def pyRound (q : ℚ) : Int :=
  let f := ⌊q⌋
  let r := q - (f : ℚ)
  if r < 1/2 then f
  else if 1/2 < r then f + 1
  else if f % 2 = 0 then f else f + 1

/-- Resolution map of VideoStream._get_resolution_from_quality
(src/server/video_stream.py lines 27-33). -/
def vs_resolution_map : Quality → Int × Int
  | .low => (426, 240)
  | .medium => (640, 360)
  | .high => (1280, 720)

/-- Mutable state of VideoStream (src/server/video_stream.py lines 11-25).
The cv2 capture handle is modelled by the video_opened flag together with
current_frame_index and total_frames; reopen_count counts the calls to
open_video, i.e. how often the capture handle was (re)opened. -/
structure VideoStreamState where
  quality : Quality
  width : Int
  height : Int
  current_frame_index : Int
  total_frames : Int
  is_playing : Bool
  playback_speed : ℚ
  video_opened : Bool
  frame_interval : ℚ
  last_frame_time : ℚ
  reopen_count : Nat
deriving DecidableEq, Repr

/-- VideoStream.open_video (src/server/video_stream.py lines 43-56): release
the previous handle and open the per-quality file; modelled as a successful
open that bumps the reopen counter and positions the handle at the stored
frame index (total_frames is taken unchanged from the file). -/
def vs_open_video (s : VideoStreamState) : VideoStreamState :=
  { s with video_opened := true, reopen_count := s.reopen_count + 1 }

/-- VideoStream.handle_set_quality (src/server/video_stream.py lines 58-71):
reject a quality outside low/medium/high, otherwise set the quality and its
resolution and unconditionally reopen the per-quality file. -/
def vs_handle_set_quality (s : VideoStreamState) (data : Option String) :
    VideoStreamState :=
  match data with
  | none => s
  | some str =>
    match parseQuality str with
    | none => s
    | some q =>
      vs_open_video
        { s with quality := q,
                 width := (vs_resolution_map q).1,
                 height := (vs_resolution_map q).2 }

/-- VideoStream.handle_play_pause (src/server/video_stream.py lines 73-76). -/
def vs_handle_play_pause (s : VideoStreamState) (b : Bool) : VideoStreamState :=
  { s with is_playing := b }

/-- VideoStream.handle_set_speed (src/server/video_stream.py lines 78-81):
stores the given factor unconditionally, with no validation. -/
def vs_handle_set_speed (s : VideoStreamState) (speed : ℚ) : VideoStreamState :=
  { s with playback_speed := speed }

/-- VideoStream.handle_seek (src/server/video_stream.py lines 83-89): when the
video is open, map the position to int(position * total_frames) clamped to
the range from 0 to total_frames - 1. -/
def vs_handle_seek (s : VideoStreamState) (position : ℚ) : VideoStreamState :=
  if s.video_opened then
    let frame_index := pyInt (position * (s.total_frames : ℚ))
    let clamped := min (max 0 frame_index) (s.total_frames - 1)
    { s with current_frame_index := clamped }
  else s

/-- One iteration of the frame-skip loop in VideoStream.read_frame
(src/server/video_stream.py lines 130-137): a cv2 read that advances the
position when not at the end, followed by the wrap check against
total_frames - 1. -/
def vs_skip_one (s : VideoStreamState) : VideoStreamState :=
  let s' :=
    if s.current_frame_index < s.total_frames then
      { s with current_frame_index := s.current_frame_index + 1 }
    else s
  if s'.total_frames - 1 ≤ s'.current_frame_index then
    { s' with current_frame_index := 0 }
  else s'

/-- The frame-skip loop of read_frame run a given number of times. -/
def vs_skip : VideoStreamState → Nat → VideoStreamState
  | s, 0 => s
  | s, n + 1 => vs_skip (vs_skip_one s) n

/-- Number of skipped frames, int((playback_speed - 1) * 2), taken only when
playback_speed > 1 (src/server/video_stream.py lines 130-131). -/
def vs_skip_count (speed : ℚ) : Nat :=
  if 1 < speed then (pyInt ((speed - 1) * 2)).toNat else 0

/-- VideoStream.read_frame (src/server/video_stream.py lines 118-149).
Returns none when the video is closed or paused or no frame is due yet; the
unguarded division frame_interval / playback_speed raises ZeroDivisionError
when playback_speed = 0, modelled as the error case of Except.  A successful
cv2 read advances the frame position and stamps last_frame_time; a failed
read (end of stream) resets the position to frame 0 and returns none.  The
returned frame is modelled by the index of the frame that was read. -/
def vs_read_frame (s : VideoStreamState) (now : ℚ) :
    Except Unit (VideoStreamState × Option Int) :=
  if !s.video_opened || !s.is_playing then .ok (s, none)
  else if s.playback_speed = 0 then .error ()
  else
    let adjusted := s.frame_interval / s.playback_speed
    if now - s.last_frame_time < adjusted then .ok (s, none)
    else
      let s1 := vs_skip s (vs_skip_count s.playback_speed)
      if s1.current_frame_index < s1.total_frames then
        .ok ({ s1 with current_frame_index := s1.current_frame_index + 1,
                       last_frame_time := now },
             some s1.current_frame_index)
      else
        .ok ({ s1 with current_frame_index := 0 }, none)

/-- Mutable state of CameraStream (src/server/camera_stream.py lines 10-17);
reopen_count counts the calls to open_camera, i.e. how often the physical
device was (re)opened. -/
structure CameraStreamState where
  quality : Quality
  width : Int
  height : Int
  reopen_count : Nat
deriving DecidableEq, Repr

/-- CameraStream.open_camera (src/server/camera_stream.py lines 19-34):
release and reopen the device (modelled by bumping the reopen counter) and
reset the quality tag from the requested width and height. -/
def cam_open_camera (s : CameraStreamState) (w h : Int) : CameraStreamState :=
  { s with reopen_count := s.reopen_count + 1,
           quality :=
             if 1280 ≤ w ∧ 720 ≤ h then Quality.high
             else if 640 ≤ w ∧ 360 ≤ h then Quality.medium
             else Quality.low }

/-- CameraStream.handle_set_quality (src/server/camera_stream.py
lines 49-70): reject a quality outside low/medium/high, skip if already at
this quality level, otherwise set the quality and reopen the camera only if
the resolution from the threshold table differs from the current one. -/
def cam_handle_set_quality (s : CameraStreamState) (data : Option String) :
    CameraStreamState :=
  match data with
  | none => s
  | some str =>
    match parseQuality str with
    | none => s
    | some q =>
      if q = s.quality then s
      else
        let res := (QUALITY_THRESHOLDS q).resolution
        if s.width ≠ res.1 ∨ s.height ≠ res.2 then
          cam_open_camera
            { s with quality := q, width := res.1, height := res.2 }
            res.1 res.2
        else
          { s with quality := q }

/-- State of StreamEngine (src/server/stream_engine.py lines 28-53) restricted
to the quality field that set_quality touches. -/
structure StreamEngineState where
  current_quality : Quality
deriving DecidableEq, Repr

/-- StreamEngine.set_quality (src/server/stream_engine.py lines 174-187): a
quality outside the threshold table is replaced by the default medium, and
the (possibly replaced) quality is then applied when it differs from the
current one. -/
def se_set_quality (s : StreamEngineState) (q : String) : StreamEngineState :=
  let qq := (parseQuality q).getD Quality.medium
  if qq ≠ s.current_quality then { s with current_quality := qq } else s

/-- State constructed by CameraStream.__init__ (src/server/camera_stream.py
lines 10-17): width 640, height 360, one open_camera call, then the quality
field is assigned medium. -/
def initialCameraStream : CameraStreamState :=
  { quality := Quality.medium, width := 640, height := 360, reopen_count := 1 }

/-- Mutable state of StreamController (src/server/stream_controller.py
lines 12-28); source and mode are the raw strings the code stores, and
current_quality is the raw string stored by handle_set_quality. -/
structure StreamControllerState where
  current_source : String
  control_mode : String
  current_quality : String
  video_stream : VideoStreamState
  camera_stream : Option CameraStreamState
  adaptive : ControllerState
deriving DecidableEq, Repr

/-- StreamController.set_source (src/server/stream_controller.py
lines 75-100): reject a source other than camera or video, skip when already
active, otherwise record the new source, constructing the camera on a switch
to camera and releasing it on a switch to video. -/
def sc_set_source (s : StreamControllerState) (source : String) :
    StreamControllerState :=
  if source = "camera" ∨ source = "video" then
    if s.current_source = source then s
    else
      let s' := { s with current_source := source }
      if source = "camera" then
        match s'.camera_stream with
        | none => { s' with camera_stream := some initialCameraStream }
        | some _ => s'
      else
        { s' with camera_stream := none }
  else s

/-- StreamController.set_control_mode (src/server/stream_controller.py
lines 138-155): reject a mode other than manual or adaptive, skip when
unchanged, otherwise record the new mode (the adaptive thread it spawns is
not part of the state model). -/
def sc_set_control_mode (s : StreamControllerState) (mode : String) :
    StreamControllerState :=
  if mode = "manual" ∨ mode = "adaptive" then
    if s.control_mode = mode then s
    else { s with control_mode := mode }
  else s

/-- StreamController.handle_set_quality (src/server/stream_controller.py
lines 106-124): the quality string defaults to medium when the key is absent
and is stored unvalidated in current_quality; it is then forwarded to the
active stream's handler, and in manual mode to the adaptive controller's
set_quality. -/
def sc_handle_set_quality (s : StreamControllerState) (data : Option String)
    (now : ℚ) : StreamControllerState :=
  let quality := data.getD "medium"
  let s1 := { s with current_quality := quality }
  let s2 :=
    if s1.current_source = "video" then
      { s1 with video_stream :=
          vs_handle_set_quality s1.video_stream (some quality) }
    else if s1.current_source = "camera" then
      match s1.camera_stream with
      | some c =>
        { s1 with camera_stream := some (cam_handle_set_quality c (some quality)) }
      | none => s1
    else s1
  if s2.control_mode = "manual" then
    { s2 with adaptive := ctrl_set_quality s2.adaptive quality now }
  else s2

/-- Controller state used to exercise the candidate-selection theorem. -/
def ctrlExampleC1 : ControllerState :=
  { current_quality := Quality.medium, last_change_time := 0,
    quality_stability_period := QUALITY_STABILITY_PERIOD,
    quality_history := [Quality.medium] }

/-- C1: determine_quality selects as candidate the highest quality level whose
min_bandwidth, max_latency and max_packet_loss thresholds are all met by the
sample, falling back to low when no level's thresholds are met; once the
stability window has elapsed the returned quality equals that candidate, and
the sample with bandwidth 6, latency 50 and packet loss 1 yields the
candidate high. -/
theorem determine_quality_candidate_highest :
    (∀ bw lat loss : ℚ,
      threshold_met (optimalQuality bw lat loss) bw lat loss
        ∨ optimalQuality bw lat loss = Quality.low)
    ∧ (∀ (bw lat loss : ℚ) (q : Quality),
        threshold_met q bw lat loss → q.rank ≤ (optimalQuality bw lat loss).rank)
    ∧ (∀ (s : ControllerState) (bw lat loss now : ℚ),
        s.quality_stability_period ≤ now - s.last_change_time →
        (determine_quality s
          { bandwidth := some bw, latency := some lat, packet_loss := some loss }
          now).2 = optimalQuality bw lat loss)
    ∧ optimalQuality 6 50 1 = Quality.high := by
  refine ⟨?_, ?_, ?_, ?_⟩
  · intro bw lat loss
    unfold optimalQuality
    split_ifs with h1 h2
    · exact Or.inl h1
    · exact Or.inl h2
    · exact Or.inr rfl
  · intro bw lat loss q hq
    unfold optimalQuality
    split_ifs with h1 h2
    · cases q <;> simp [Quality.rank]
    · cases q <;> simp_all [Quality.rank]
    · cases q <;> simp_all [Quality.rank]
  · intro s bw lat loss now hwin
    simp only [determine_quality, controllerMetricDefaults, Option.getD_some]
    by_cases hc : optimalQuality bw lat loss = s.current_quality
    · simp only [hc, ne_eq, not_true_eq_false, if_false, ite_self]
      split <;> simp [hc]
    · simp only [ne_eq, hc, not_false_eq_true, if_true, if_pos hwin]
      split <;> simp
  · norm_num [optimalQuality, threshold_met, QUALITY_THRESHOLDS]

/-- Witness for C1: with a stability window that has elapsed, the decision on
the sample with bandwidth 6, latency 50 and packet loss 1 is high. -/
theorem determine_quality_candidate_highest_witness :
    (determine_quality ctrlExampleC1
      { bandwidth := some 6, latency := some 50, packet_loss := some 1 }
      10).2 = optimalQuality 6 50 1
    ∧ optimalQuality 6 50 1 = Quality.high :=
  ⟨determine_quality_candidate_highest.2.2.1 ctrlExampleC1 6 50 1 10
      (by norm_num [ctrlExampleC1, QUALITY_STABILITY_PERIOD]),
    determine_quality_candidate_highest.2.2.2⟩

/-- Core case analysis of one determine_quality step: the stability period is
preserved, the returned level is the new current quality, nothing but the
history moves while the stability window is still open, and an applied change
implies the window had elapsed and stamps last_change_time with now. -/
theorem determine_quality_step (s : ControllerState) (m : MetricsMsg) (now : ℚ) :
    (determine_quality s m now).1.quality_stability_period = s.quality_stability_period
    ∧ (determine_quality s m now).2 = (determine_quality s m now).1.current_quality
    ∧ (¬ s.quality_stability_period ≤ now - s.last_change_time →
        (determine_quality s m now).1.current_quality = s.current_quality
          ∧ (determine_quality s m now).1.last_change_time = s.last_change_time)
    ∧ ((determine_quality s m now).1.current_quality ≠ s.current_quality →
        s.quality_stability_period ≤ now - s.last_change_time
          ∧ (determine_quality s m now).1.last_change_time = now) := by
  simp only [determine_quality]
  split_ifs <;> simp_all

/-- C2: between calls closer together than the stability period the decided
quality does not change: a candidate differing from the current quality is
applied only when now - last_change_time has reached the stability period,
an applied change stamps last_change_time with now, and after a change any
second call within the stability period returns the just-changed level
unchanged. -/
theorem determine_quality_hysteresis :
    (∀ (s : ControllerState) (m : MetricsMsg) (now : ℚ),
      ((determine_quality s m now).2 ≠ s.current_quality →
        s.quality_stability_period ≤ now - s.last_change_time
          ∧ (determine_quality s m now).1.last_change_time = now)
      ∧ (now - s.last_change_time < s.quality_stability_period →
          (determine_quality s m now).2 = s.current_quality
            ∧ (determine_quality s m now).1.current_quality = s.current_quality
            ∧ (determine_quality s m now).1.last_change_time = s.last_change_time))
    ∧ (∀ (s : ControllerState) (m1 : MetricsMsg) (t1 : ℚ) (m2 : MetricsMsg) (t2 : ℚ),
        (determine_quality s m1 t1).2 ≠ s.current_quality →
        t2 - t1 < s.quality_stability_period →
        (determine_quality (determine_quality s m1 t1).1 m2 t2).2
          = (determine_quality s m1 t1).2) := by
  have hstep := determine_quality_step
  constructor
  · intro s m now
    obtain ⟨hper, hret, hopen, hchange⟩ := hstep s m now
    constructor
    · intro hne
      rw [hret] at hne
      exact hchange hne
    · intro hlt
      by_cases hc : (determine_quality s m now).1.current_quality = s.current_quality
      · exact ⟨hret.trans hc, hc, (hopen (not_le.mpr hlt)).2⟩
      · exact absurd (hchange hc).1 (not_le.mpr hlt)
  · intro s m1 t1 m2 t2 hne hlt
    obtain ⟨hper1, hret1, _, hchange1⟩ := hstep s m1 t1
    rw [hret1] at hne
    obtain ⟨_, hlast1⟩ := hchange1 hne
    obtain ⟨_, hret2, hopen2, _⟩ := hstep (determine_quality s m1 t1).1 m2 t2
    have hopen' : ¬ (determine_quality s m1 t1).1.quality_stability_period
        ≤ t2 - (determine_quality s m1 t1).1.last_change_time := by
      rw [hper1, hlast1]
      exact not_le.mpr hlt
    rw [hret2, (hopen2 hopen').1, hret1]

/-- Controller state used to exercise the hysteresis theorem. -/
def ctrlExampleC2 : ControllerState :=
  { current_quality := Quality.medium, last_change_time := 0,
    quality_stability_period := QUALITY_STABILITY_PERIOD,
    quality_history := [Quality.medium] }

/-- Low-quality metrics sample with bandwidth 1, latency 300, packet loss 10. -/
def mLowSample : MetricsMsg :=
  { bandwidth := some 1, latency := some 300, packet_loss := some 10 }

/-- Witness for C2: a change applied at time 6 is not followed by another
change at time 7, within the 5 second stability period. -/
theorem determine_quality_hysteresis_witness :
    (determine_quality (determine_quality ctrlExampleC2 mLowSample 6).1
        mLowSample 7).2
      = (determine_quality ctrlExampleC2 mLowSample 6).2 :=
  determine_quality_hysteresis.2 ctrlExampleC2 mLowSample 6 mLowSample 7
    (by
      norm_num [determine_quality, controllerMetricDefaults, optimalQuality,
        threshold_met, QUALITY_THRESHOLDS, QUALITY_STABILITY_PERIOD,
        ctrlExampleC2, mLowSample]
      simp)
    (by norm_num [ctrlExampleC2, QUALITY_STABILITY_PERIOD])

/-- Controller state right after a change to high at time 0, with the
configured stability period. -/
def ctrlAfterHighChange : ControllerState :=
  { current_quality := Quality.high, last_change_time := 0,
    quality_stability_period := QUALITY_STABILITY_PERIOD,
    quality_history := [Quality.high] }

/-- Counterexample to C3: the configured stability period is 5 seconds, not
2.0 seconds, and a sample meeting only the low thresholds presented 2.1
seconds after the last change leaves the quality at high instead of
transitioning to low. -/
theorem stability_period_two_seconds_cex :
    QUALITY_STABILITY_PERIOD ≠ 2
    ∧ (determine_quality ctrlAfterHighChange mLowSample (21/10)).2 = Quality.high
    ∧ (determine_quality ctrlAfterHighChange mLowSample (21/10)).2 ≠ Quality.low := by
  refine ⟨by norm_num [QUALITY_STABILITY_PERIOD], ?_, ?_⟩ <;>
    (norm_num [determine_quality, controllerMetricDefaults, optimalQuality,
      threshold_met, QUALITY_THRESHOLDS, QUALITY_STABILITY_PERIOD,
      ctrlAfterHighChange, mLowSample]
     try simp)

/-- C3 (amended): the decision engine's stability period defaults to 5
seconds; after a quality change, presenting a sample that meets only the low
thresholds once 5.1 seconds have elapsed since the last change makes
determine_quality transition to low, while at 2.1 seconds the change is
still suppressed. -/
theorem stability_period_five_seconds :
    QUALITY_STABILITY_PERIOD = 5
    ∧ (determine_quality ctrlAfterHighChange mLowSample (51/10)).2 = Quality.low
    ∧ (determine_quality ctrlAfterHighChange mLowSample (21/10)).2 = Quality.high := by
  refine ⟨rfl, ?_, ?_⟩ <;>
    (norm_num [determine_quality, controllerMetricDefaults, optimalQuality,
      threshold_met, QUALITY_THRESHOLDS, QUALITY_STABILITY_PERIOD,
      ctrlAfterHighChange, mLowSample]
     try simp)

/-- Video-stream state as constructed by VideoStream.__init__ with a 300
frame file open at medium quality. -/
def videoExample : VideoStreamState :=
  { quality := Quality.medium, width := 640, height := 360,
    current_frame_index := 0, total_frames := 300, is_playing := true,
    playback_speed := 1, video_opened := true, frame_interval := 1/100,
    last_frame_time := 0, reopen_count := 1 }

/-- Counterexample to C4: on the FileSource variant, calling set_quality twice
in a row with the unchanged level medium reopens the capture handle twice,
so the second call is not a no-op. -/
theorem video_set_quality_not_idempotent_cex :
    (vs_handle_set_quality (vs_handle_set_quality videoExample (some "medium"))
        (some "medium")).reopen_count = videoExample.reopen_count + 2
    ∧ ¬ (vs_handle_set_quality (vs_handle_set_quality videoExample (some "medium"))
        (some "medium")).reopen_count ≤ videoExample.reopen_count + 1 := by
  constructor <;>
    simp [vs_handle_set_quality, vs_open_video, parseQuality, videoExample]

/-- C4 (amended): only the DeviceSource variant is idempotent — for
CameraStream, two consecutive set_quality calls with the same level perform
at most one device reopen, while for VideoStream every accepted set_quality
call reopens the file handle, so two consecutive calls with the same valid
level always perform two reopens. -/
theorem set_quality_reopen_counts :
    (∀ (c : CameraStreamState) (q : String),
      (cam_handle_set_quality (cam_handle_set_quality c (some q))
          (some q)).reopen_count ≤ c.reopen_count + 1)
    ∧ (∀ v : VideoStreamState,
        (vs_handle_set_quality (vs_handle_set_quality v (some "medium"))
            (some "medium")).reopen_count = v.reopen_count + 2) := by
  constructor
  · intro c q
    cases hp : parseQuality q with
    | none => simp [cam_handle_set_quality, hp]
    | some qq =>
      simp only [cam_handle_set_quality, hp]
      by_cases h1 : qq = c.quality
      · simp [h1]
      · rw [if_neg h1]
        by_cases h2 : c.width ≠ (QUALITY_THRESHOLDS qq).resolution.1
            ∨ c.height ≠ (QUALITY_THRESHOLDS qq).resolution.2
        · rw [if_pos h2]
          by_cases h3 : qq = (cam_open_camera
              { c with quality := qq,
                       width := (QUALITY_THRESHOLDS qq).resolution.1,
                       height := (QUALITY_THRESHOLDS qq).resolution.2 }
              (QUALITY_THRESHOLDS qq).resolution.1
              (QUALITY_THRESHOLDS qq).resolution.2).quality
          · rw [if_pos h3]
            simp [cam_open_camera]
          · rw [if_neg h3]
            simp [cam_open_camera]
        · rw [if_neg h2]
          simp
  · intro v
    simp [vs_handle_set_quality, vs_open_video, parseQuality]

/-- Video-stream state with a 10 frame file open, used for the seek claims. -/
def seekExample : VideoStreamState :=
  { quality := Quality.medium, width := 640, height := 360,
    current_frame_index := 0, total_frames := 10, is_playing := true,
    playback_speed := 1, video_opened := true, frame_interval := 1/100,
    last_frame_time := 0, reopen_count := 1 }

/-- Counterexample to C5: on a 10 frame file, seek at position 3/4 stores
frame index int(7.5) = 7, while round(7.5) clamped to the valid range is 8,
so handle_seek does not use round as the claim states. -/
theorem seek_round_cex :
    (vs_handle_seek seekExample (3/4)).current_frame_index = 7
    ∧ min (max 0 (pyRound ((3/4 : ℚ) * (10 : ℚ)))) (10 - 1) = 8
    ∧ (7 : Int) ≠ 8 := by
  refine ⟨?_, ?_, by norm_num⟩
  · norm_num [vs_handle_seek, pyInt, seekExample]
  · norm_num [pyRound]

/-- C5 (amended): for every position and every open FileSource with
total_frames = N > 0, handle_seek sets current_frame_index to
int(position * N) — truncation toward zero, not rounding — clamped to the
range from 0 to N - 1; in particular any position below 0 clamps to frame 0
and any position above 1 clamps to frame N - 1. -/
theorem seek_trunc_clamped :
    ∀ (s : VideoStreamState) (position : ℚ),
      s.video_opened = true → 0 < s.total_frames →
      ((vs_handle_seek s position).current_frame_index
          = min (max 0 (pyInt (position * (s.total_frames : ℚ))))
              (s.total_frames - 1))
      ∧ (position < 0 → (vs_handle_seek s position).current_frame_index = 0)
      ∧ (1 < position →
          (vs_handle_seek s position).current_frame_index = s.total_frames - 1) := by
  intro s position hop hN
  have hNQ : (0:ℚ) < (s.total_frames : ℚ) := by exact_mod_cast hN
  refine ⟨by simp [vs_handle_seek, hop], ?_, ?_⟩
  · intro hpos
    have hq : position * (s.total_frames : ℚ) < 0 := mul_neg_of_neg_of_pos hpos hNQ
    have hle : pyInt (position * (s.total_frames : ℚ)) ≤ 0 := by
      unfold pyInt
      rw [if_neg (not_le.mpr hq)]
      exact Int.ceil_le.mpr (by exact_mod_cast hq.le)
    simp only [vs_handle_seek, hop, if_true]
    omega
  · intro hpos
    have h1 : (s.total_frames : ℚ) < position * (s.total_frames : ℚ) := by
      calc (s.total_frames : ℚ) = 1 * (s.total_frames : ℚ) := (one_mul _).symm
        _ < position * (s.total_frames : ℚ) := mul_lt_mul_of_pos_right hpos hNQ
    have h0 : (0:ℚ) ≤ position * (s.total_frames : ℚ) := le_trans hNQ.le h1.le
    have hfl : s.total_frames ≤ pyInt (position * (s.total_frames : ℚ)) := by
      unfold pyInt
      rw [if_pos h0]
      exact Int.le_floor.mpr h1.le
    simp only [vs_handle_seek, hop, if_true]
    omega

/-- Witness for C5 (amended): seeking to position 2 on the open 10 frame file
clamps to the last frame index 9. -/
theorem seek_trunc_clamped_witness :
    (vs_handle_seek seekExample 2).current_frame_index
      = seekExample.total_frames - 1 :=
  (seek_trunc_clamped seekExample 2 rfl (by norm_num [seekExample])).2.2
    (by norm_num)

/-- Counterexample to C6: inside determine_quality a fully missing metrics
dictionary is defaulted to bandwidth 0, latency 500 and packet loss 15, not
to the claimed worst-case values 0, 999 and 100. -/
theorem decision_defaults_cex :
    controllerMetricDefaults
        { bandwidth := none, latency := none, packet_loss := none }
      = (0, 500, 15)
    ∧ ((0:ℚ), (500:ℚ), (15:ℚ)) ≠ ((0:ℚ), (999:ℚ), (100:ℚ)) := by
  refine ⟨rfl, ?_⟩
  simp only [ne_eq, Prod.mk.injEq, not_and]
  intro _ h
  norm_num at h

/-- C6 (amended): missing metric fields default to the worst-case values
bandwidth 0, latency 999 and packet loss 100 only at the socket boundary
(handle_network_metrics); inside determine_quality they default to bandwidth
0, latency 500 and packet loss 15.  Both sets of defaults fail safe toward
the lowest quality: each yields the candidate low, and determine_quality
behaves on a fully missing dictionary exactly as on the worst-case sample. -/
theorem metric_defaults_fail_safe :
    boundaryMetricDefaults
        { bandwidth := none, latency := none, packet_loss := none }
      = (0, 999, 100)
    ∧ controllerMetricDefaults
        { bandwidth := none, latency := none, packet_loss := none }
      = (0, 500, 15)
    ∧ optimalQuality 0 500 15 = Quality.low
    ∧ optimalQuality 0 999 100 = Quality.low
    ∧ (∀ (s : ControllerState) (now : ℚ),
        determine_quality s
            { bandwidth := none, latency := none, packet_loss := none } now
          = determine_quality s
              { bandwidth := some 0, latency := some 999, packet_loss := some 100 }
              now) := by
  have h1 : optimalQuality 0 500 15 = Quality.low := by
    norm_num [optimalQuality, threshold_met, QUALITY_THRESHOLDS]
  have h2 : optimalQuality 0 999 100 = Quality.low := by
    norm_num [optimalQuality, threshold_met, QUALITY_THRESHOLDS]
  refine ⟨rfl, rfl, h1, h2, ?_⟩
  intro s now
  simp only [determine_quality, controllerMetricDefaults, Option.getD_none,
    Option.getD_some]
  rw [h1, h2]

/-- Counterexample to C7: StreamEngine.set_quality with the unknown level
ultra silently coerces it to the default medium and applies it, changing the
state from low to medium instead of rejecting with a no-op. -/
theorem stream_engine_coerces_default_cex :
    (se_set_quality { current_quality := Quality.low } "ultra").current_quality
      = Quality.medium
    ∧ Quality.medium ≠ Quality.low := by
  refine ⟨?_, by decide⟩
  simp [se_set_quality, parseQuality]

/-- Stream-controller state used to exercise the invalid-input theorems. -/
def scExample : StreamControllerState :=
  { current_source := "video", control_mode := "manual",
    current_quality := "medium",
    video_stream :=
      { quality := Quality.medium, width := 640, height := 360,
        current_frame_index := 0, total_frames := 300, is_playing := true,
        playback_speed := 1, video_opened := true, frame_interval := 1/100,
        last_frame_time := 0, reopen_count := 1 },
    camera_stream := none,
    adaptive :=
      { current_quality := Quality.medium, last_change_time := 0,
        quality_stability_period := QUALITY_STABILITY_PERIOD,
        quality_history := [Quality.medium] } }

/-- C7 (amended): unknown quality levels are rejected as no-ops by
VideoStream.handle_set_quality, CameraStream.handle_set_quality and
AdaptiveQualityController.set_quality, and unknown source kinds and mode
strings are rejected by StreamController.set_source and set_control_mode;
however StreamEngine.set_quality silently coerces an unknown level to the
default medium and applies it, and StreamController.handle_set_quality
stores the unvalidated quality string in its current_quality field. -/
theorem invalid_input_handling :
    (∀ (v : VideoStreamState) (q : String), parseQuality q = none →
      vs_handle_set_quality v (some q) = v)
    ∧ (∀ (c : CameraStreamState) (q : String), parseQuality q = none →
        cam_handle_set_quality c (some q) = c)
    ∧ (∀ (s : ControllerState) (q : String) (now : ℚ), parseQuality q = none →
        ctrl_set_quality s q now = s)
    ∧ (∀ (s : StreamControllerState) (src : String),
        src ≠ "camera" → src ≠ "video" → sc_set_source s src = s)
    ∧ (∀ (s : StreamControllerState) (mode : String),
        mode ≠ "manual" → mode ≠ "adaptive" → sc_set_control_mode s mode = s)
    ∧ (∀ (e : StreamEngineState) (q : String), parseQuality q = none →
        (se_set_quality e q).current_quality = Quality.medium)
    ∧ (∀ (s : StreamControllerState) (q : String) (now : ℚ),
        (sc_handle_set_quality s (some q) now).current_quality = q) := by
  refine ⟨?_, ?_, ?_, ?_, ?_, ?_, ?_⟩
  · intro v q hq
    simp [vs_handle_set_quality, hq]
  · intro c q hq
    simp [cam_handle_set_quality, hq]
  · intro s q now hq
    simp [ctrl_set_quality, hq]
  · intro s src h1 h2
    rw [sc_set_source, if_neg (by simp [h1, h2])]
  · intro s mode h1 h2
    rw [sc_set_control_mode, if_neg (by simp [h1, h2])]
  · intro e q hq
    simp only [se_set_quality, hq, Option.getD_none]
    split_ifs with h
    · rfl
    · simp_all
  · intro s q now
    simp only [sc_handle_set_quality, Option.getD_some]
    split_ifs <;> try rfl
    all_goals
      first
      | rfl
      | (rename_i hcam _
         cases hc : s.camera_stream <;> simp [hc])

/-- Witness for C7 (amended): the unknown source disk is rejected as a no-op,
while StreamEngine coerces the unknown level ultra to medium and
StreamController stores the raw string ultra. -/
theorem invalid_input_handling_witness :
    sc_set_source scExample "disk" = scExample
    ∧ (se_set_quality { current_quality := Quality.low } "ultra").current_quality
        = Quality.medium
    ∧ (sc_handle_set_quality scExample (some "ultra") 0).current_quality
        = "ultra" := by
  obtain ⟨h1, h2, h3, h4, h5, h6, h7⟩ := invalid_input_handling
  exact ⟨h4 scExample "disk" (by decide) (by decide),
    h6 { current_quality := Quality.low } "ultra" (by decide),
    h7 scExample "ultra" 0⟩

/-- Counterexample to C8: the manual override set_quality appends to a
100 entry history without trimming, leaving 101 entries, so the 100 entry
cap is not an invariant of every engine operation. -/
theorem manual_set_quality_history_overflow_cex :
    (ctrl_set_quality
        { current_quality := Quality.low, last_change_time := 0,
          quality_stability_period := QUALITY_STABILITY_PERIOD,
          quality_history := List.replicate 100 Quality.low }
        "high" 1).quality_history.length = 101
    ∧ ¬ (101 ≤ 100) := by
  refine ⟨?_, by norm_num⟩
  simp [ctrl_set_quality, parseQuality]

/-- C8 (amended): the history is appended to most-recent-last on both paths,
but only determine_quality enforces the cap — after any determine_quality
call the history holds at most 100 entries, while the manual set_quality
merely appends, growing the history by at most one entry and possibly past
100 until the next determine_quality call trims it. -/
theorem history_cap_maintained :
    (∀ (s : ControllerState) (m : MetricsMsg) (now : ℚ),
      ((determine_quality s m now).1).quality_history.length ≤ 100)
    ∧ (∀ (s : ControllerState) (q : String) (now : ℚ),
        (ctrl_set_quality s q now).quality_history.length
          ≤ s.quality_history.length + 1) := by
  constructor
  · intro s m now
    simp only [determine_quality]
    split_ifs <;> simp_all <;> omega
  · intro s q now
    simp only [ctrl_set_quality]
    cases parseQuality q
    · simp
    · simp only []
      split_ifs <;> simp

/-- C9: for an open, playing FileSource at normal speed with a frame due,
a read_frame call that has reached the end of the stream (frame index at or
past total_frames) wraps the position back to frame index 0 and returns
normally with no frame, raising no error and leaving the source open and
otherwise untouched. -/
theorem read_frame_loop_back :
    ∀ (s : VideoStreamState) (now : ℚ),
      s.video_opened = true → s.is_playing = true → s.playback_speed = 1 →
      s.frame_interval ≤ now - s.last_frame_time →
      s.total_frames ≤ s.current_frame_index →
      vs_read_frame s now = .ok ({ s with current_frame_index := 0 }, none) := by
  intro s now hop hpl hsp hdue hend
  simp [vs_read_frame, hop, hpl, hsp, vs_skip_count, vs_skip,
    not_lt.mpr hdue, not_lt.mpr hend]

/-- Video-stream state whose position has reached the end of its 10 frame
file. -/
def videoAtEnd : VideoStreamState :=
  { quality := Quality.medium, width := 640, height := 360,
    current_frame_index := 10, total_frames := 10, is_playing := true,
    playback_speed := 1, video_opened := true, frame_interval := 1/100,
    last_frame_time := 0, reopen_count := 1 }

/-- Witness for C9: at the end of the 10 frame file, read_frame wraps the
position to frame 0 and returns no frame. -/
theorem read_frame_loop_back_witness :
    vs_read_frame videoAtEnd 1
      = .ok ({ videoAtEnd with current_frame_index := 0 }, none) :=
  read_frame_loop_back videoAtEnd 1 rfl rfl rfl
    (by norm_num [videoAtEnd]) (by norm_num [videoAtEnd])

/-- C10: VideoStream.read_frame is total under the precondition
playback_speed > 0, returning normally with either a frame or none; the
precondition is not enforced at the public interface — handle_set_speed
stores any factor unvalidated — and the unguarded division
frame_interval / playback_speed makes read_frame raise (the error case)
whenever an open playing source has playback_speed = 0. -/
theorem read_frame_total_pos_speed :
    (∀ (s : VideoStreamState) (now : ℚ), 0 < s.playback_speed →
      ∃ r, vs_read_frame s now = .ok r)
    ∧ (∀ (s : VideoStreamState) (v : ℚ),
        (vs_handle_set_speed s v).playback_speed = v)
    ∧ (∀ (s : VideoStreamState) (now : ℚ),
        s.video_opened = true → s.is_playing = true → s.playback_speed = 0 →
        vs_read_frame s now = .error ()) := by
  refine ⟨?_, ?_, ?_⟩
  · intro s now hsp
    simp only [vs_read_frame]
    split_ifs with h1 h2
    · exact ⟨_, rfl⟩
    · exact absurd h2 hsp.ne'
    · exact ⟨_, rfl⟩
    · exact ⟨_, rfl⟩
    · exact ⟨_, rfl⟩
  · intro s v
    rfl
  · intro s now hop hpl hsp
    simp [vs_read_frame, hop, hpl, hsp]

/-- Witness for C10: at speed 1 the end-of-file state reads without error,
and the same state with speed 0 raises. -/
theorem read_frame_total_pos_speed_witness :
    (∃ r, vs_read_frame videoAtEnd 1 = .ok r)
    ∧ vs_read_frame { videoAtEnd with playback_speed := 0 } 1 = .error () :=
  ⟨read_frame_total_pos_speed.1 videoAtEnd 1 (by norm_num [videoAtEnd]),
    read_frame_total_pos_speed.2.2 { videoAtEnd with playback_speed := 0 } 1
      rfl rfl rfl⟩

end AdaptiveStreaming
